import Mathlib

/-!
Verification development for the museum ticket-booking backend.

The definitions below are shallow embeddings of the TypeScript sources:
pure functions become Lean functions; the network (`fetch`), the headless
browser, the wall clock and random generators become explicit oracle
parameters (an environment record); the durable stores (the JSON
manual-booking log and the MongoDB client-place collection) become lists
of records threaded through the operations; JavaScript exceptions become
`Except String`.  `museumResponse` payloads (free-form diagnostic objects
attached to results) are not modelled; only the fields the specification
talks about (`success`, booking reference, `error`) are.
-/

set_option maxHeartbeats 1000000

/-! ## Small list helpers (JS `Array.find` / first-match update semantics) -/

/-- Index of the first element satisfying `p`, mirroring JS `Array.prototype.find`
and Mongoose `findOne` (first match wins). -/
def lookupIdxBy {α : Type} (p : α → Bool) : List α → Option Nat
  | [] => none
  | a :: rest => if p a then some 0 else (lookupIdxBy p rest).map (· + 1)

theorem lookupIdxBy_lt_length {α : Type} (p : α → Bool) :
    ∀ (l : List α) (i : Nat), lookupIdxBy p l = some i → i < l.length := by
  intro l
  induction l with
  | nil => intro i h; simp [lookupIdxBy] at h
  | cons a rest ih =>
    intro i h
    simp only [lookupIdxBy] at h
    by_cases hp : p a
    · simp [hp] at h
      subst h
      simp
    · simp [hp] at h
      obtain ⟨j, hj, rfl⟩ := h
      have := ih j hj
      simp only [List.length_cons]
      omega

theorem lookupIdxBy_getD {α : Type} (p : α → Bool) (d : α) :
    ∀ (l : List α) (i : Nat), lookupIdxBy p l = some i → p (l.getD i d) = true := by
  intro l
  induction l with
  | nil => intro i h; simp [lookupIdxBy] at h
  | cons a rest ih =>
    intro i h
    simp only [lookupIdxBy] at h
    by_cases hp : p a
    · simp [hp] at h; subst h; simpa using hp
    · simp [hp] at h
      obtain ⟨j, hj, rfl⟩ := h
      simpa [List.getD] using ih j hj

theorem lookupIdxBy_set {α : Type} (p : α → Bool) :
    ∀ (l : List α) (i : Nat) (a : α), lookupIdxBy p l = some i → p a = true →
      lookupIdxBy p (l.set i a) = some i := by
  intro l
  induction l with
  | nil => intro i a h _; simp [lookupIdxBy] at h
  | cons x rest ih =>
    intro i a h hpa
    simp only [lookupIdxBy] at h
    by_cases hp : p x
    · simp [hp] at h; subst h; simp [List.set, lookupIdxBy, hpa]
    · simp [hp] at h
      obtain ⟨j, hj, rfl⟩ := h
      simp [List.set, lookupIdxBy, hp, ih j a hj hpa]

theorem getD_set_self {α : Type} :
    ∀ (l : List α) (i : Nat) (a d : α), i < l.length → (l.set i a).getD i d = a := by
  intro l
  induction l with
  | nil => intro i a d h; simp at h
  | cons x rest ih =>
    intro i a d h
    cases i with
    | zero => simp [List.set]
    | succ j => simp only [List.set, List.getD]; simpa [List.getD] using ih j a d (by simpa using h)

theorem getD_set_ne {α : Type} :
    ∀ (l : List α) (i j : Nat) (a d : α), i ≠ j → (l.set i a).getD j d = l.getD j d := by
  intro l
  induction l with
  | nil => intro i j a d _; simp [List.set]
  | cons x rest ih =>
    intro i j a d hne
    cases i with
    | zero =>
      cases j with
      | zero => exact absurd rfl hne
      | succ k => simp [List.set, List.getD]
    | succ i' =>
      cases j with
      | zero => simp [List.set, List.getD]
      | succ k => simp only [List.set, List.getD]; simpa [List.getD] using ih i' k a d (by omega)

theorem take_set_of_le {α : Type} :
    ∀ (l : List α) (i n : Nat) (a : α), n ≤ i → (l.set i a).take n = l.take n := by
  intro l
  induction l with
  | nil => intro i n a _; simp [List.set]
  | cons x rest ih =>
    intro i n a h
    cases i with
    | zero =>
      cases n with
      | zero => simp
      | succ m => omega
    | succ i' =>
      cases n with
      | zero => simp
      | succ m => simp only [List.set, List.take]; rw [ih i' m a (by omega)]

/-- Substring check (JS `String.prototype.includes`). -/
def containsSub : List Char → List Char → Bool
  | _, [] => true
  | [], _ :: _ => false
  | c :: rest, s :: srest => List.isPrefixOf (s :: srest) (c :: rest) || containsSub rest (s :: srest)

/-- `strContains s pat` mirrors JS `s.includes(pat)`. -/
def strContains (s pat : String) : Bool := containsSub s.data pat.data

/-- JS `||` on an optional string value: `undefined` and `""` are falsy. -/
def jsOrS (v : Option String) (d : String) : String :=
  match v with
  | some s => if s = "" then d else s
  | none => d

/-! ## Identity validation (`RealVerificationSystem.validateChineseID`,
`IDCardVerificationService.validateCheckDigit`,
src/src/services/realVerificationSystem.ts lines 214-238 and 424-437).

ID numbers are embedded as `List Char` (`String.data`). -/

/-- `const weights = [7, 9, 10, 5, 8, 4, 2, 1, 6, 3, 7, 9, 10, 5, 8, 4, 2]`. -/
def weights : List Nat := [7, 9, 10, 5, 8, 4, 2, 1, 6, 3, 7, 9, 10, 5, 8, 4, 2]

/-- `const checkCodes = ['1', '0', 'X', '9', '8', '7', '6', '5', '4', '3', '2']`. -/
def checkCodes : List Char := ['1', '0', 'X', '9', '8', '7', '6', '5', '4', '3', '2']

/-- `parseInt` of a single digit character. -/
def digitVal (c : Char) : Nat := c.toNat - '0'.toNat

/-- `sum += parseInt(idNumber[i]) * weights[i]` for `i < 17`. -/
def weightedSum (digits : List Char) : Nat :=
  ((digits.zip weights).map (fun p => digitVal p.1 * p.2)).foldl (· + ·) 0

/-- `checkCodes[sum % 11]` computed over the first 17 characters. -/
def checkChar (s : List Char) : Char := checkCodes.getD (weightedSum (s.take 17) % 11) ' '

/-- The regex test `/^\d{17}[\dXx]$/` (the length-18 guard is separate in the
source and separate in `validateChineseID` below). -/
def idFormatOk (s : List Char) : Bool :=
  (s.take 17).all Char.isDigit &&
    (Char.isDigit (s.getD 17 ' ') || s.getD 17 ' ' == 'X' || s.getD 17 ' ' == 'x')

/-- `RealVerificationSystem.validateChineseID` (identical arithmetic to
`IDCardVerificationService.validateCheckDigit`): length guard, format regex,
then weighted mod-11 check digit compared against the uppercased 18th character. -/
def validateChineseID (s : List Char) : Bool :=
  if s.length ≠ 18 then false
  else if ¬ idFormatOk s then false
  else checkChar s == Char.toUpper (s.getD 17 ' ')

/-- The condition C4 literally states for validity: 18 chars, first 17 digits,
18th a digit or the literal character 'X', 18th equal to the check character. -/
def c4StrictCondition (s : List Char) : Prop :=
  s.length = 18 ∧ (s.take 17).all Char.isDigit = true ∧
    (Char.isDigit (s.getD 17 ' ') = true ∨ s.getD 17 ' ' = 'X') ∧
    s.getD 17 ' ' = checkChar s

/-! ## Timing gate -/

/-- Phase of the daily release window. -/
inductive Phase
  | before_release
  | in_release_window
  | after_release_window
deriving DecidableEq, Repr

/-- Observable part of the timing-status object: computed phase and can-book flag. -/
structure TimingStatus where
  status : Phase
  canBook : Bool
deriving DecidableEq, Repr

/-- `MuseumAutomation.checkMuseumTimingStatus` (src/src/services/museumAutomation.ts
lines 2280-2332), as a function of the China-timezone hour and minute:
`currentTime = hour*60 + minute`, `releaseTime = 17*60`, with
`isInReleaseWindow = currentTime >= releaseTime && currentTime <= releaseTime + 5`. -/
def checkMuseumTimingStatus (currentHour currentMinute : Nat) : TimingStatus :=
  let currentTime := currentHour * 60 + currentMinute
  let releaseTime := 17 * 60
  if currentTime < releaseTime then ⟨.before_release, false⟩
  else if releaseTime ≤ currentTime ∧ currentTime ≤ releaseTime + 5 then ⟨.in_release_window, true⟩
  else ⟨.after_release_window, false⟩

/-- `WorkingMuseumIntegration.checkMuseumTimingStatus` (src/unnamed/part_007
lines 524-566): branches on `currentHour < 17 || (currentHour === 17 && currentMinute < 0)`,
then `currentHour === 17 && currentMinute < 5`. -/
def workingCheckMuseumTimingStatus (currentHour currentMinute : Nat) : TimingStatus :=
  if currentHour < 17 ∨ (currentHour = 17 ∧ currentMinute < 0) then ⟨.before_release, false⟩
  else if currentHour = 17 ∧ currentMinute < 5 then ⟨.in_release_window, true⟩
  else ⟨.after_release_window, false⟩

/-- The phase assignment the claim states, as a function of minutes-since-midnight:
before when `now < release`, in-window when `release ≤ now < release + 5`,
after when `now ≥ release + 5`. -/
def specTimingPhase (nowMin releaseMin : Nat) : Phase :=
  if nowMin < releaseMin then .before_release
  else if nowMin < releaseMin + 5 then .in_release_window
  else .after_release_window

/-! ### Claim C3 — timing gate phases -/

/-- C3 (counterexample): the claim says `after_release_window` exactly when
`now ≥ release + 5` minutes, but at exactly 17:05 `MuseumAutomation.checkMuseumTimingStatus`
reports `in_release_window` with `canBook = true` (the code's window check is
`currentTime <= releaseTime + 5`, inclusive on the right). -/
theorem c3_timing_gate_counterexample :
    checkMuseumTimingStatus 17 5 = ⟨Phase.in_release_window, true⟩ ∧
    specTimingPhase (17 * 60 + 5) (17 * 60) = Phase.after_release_window := by
  constructor <;> decide

/-- C3 (amended): `MuseumAutomation.checkMuseumTimingStatus` reports
`before_release` iff now < 17:00, `in_release_window` iff 17:00 ≤ now ≤ 17:05
(right-inclusive, whole minutes), and `after_release_window` iff now > 17:05,
with `canBook` true exactly in the window; the `WorkingMuseumIntegration`
variant uses the right-exclusive window 17:00 ≤ now < 17:05 the claim states;
the claim's 16:59 / 17:02 / 17:06 examples hold for both implementations. -/
theorem c3_timing_gate_amended :
    ∀ currentHour currentMinute : Nat, currentMinute ≤ 59 →
      (((checkMuseumTimingStatus currentHour currentMinute).status = Phase.before_release ↔
          currentHour * 60 + currentMinute < 17 * 60) ∧
       ((checkMuseumTimingStatus currentHour currentMinute).status = Phase.in_release_window ↔
          (17 * 60 ≤ currentHour * 60 + currentMinute ∧
            currentHour * 60 + currentMinute ≤ 17 * 60 + 5)) ∧
       ((checkMuseumTimingStatus currentHour currentMinute).status = Phase.after_release_window ↔
          17 * 60 + 5 < currentHour * 60 + currentMinute) ∧
       ((checkMuseumTimingStatus currentHour currentMinute).canBook = true ↔
          (checkMuseumTimingStatus currentHour currentMinute).status = Phase.in_release_window)) ∧
      (((workingCheckMuseumTimingStatus currentHour currentMinute).status = Phase.before_release ↔
          currentHour * 60 + currentMinute < 17 * 60) ∧
       ((workingCheckMuseumTimingStatus currentHour currentMinute).status = Phase.in_release_window ↔
          (17 * 60 ≤ currentHour * 60 + currentMinute ∧
            currentHour * 60 + currentMinute < 17 * 60 + 5)) ∧
       ((workingCheckMuseumTimingStatus currentHour currentMinute).status = Phase.after_release_window ↔
          17 * 60 + 5 ≤ currentHour * 60 + currentMinute) ∧
       ((workingCheckMuseumTimingStatus currentHour currentMinute).canBook = true ↔
          (workingCheckMuseumTimingStatus currentHour currentMinute).status = Phase.in_release_window)) ∧
      (checkMuseumTimingStatus 16 59 = ⟨.before_release, false⟩ ∧
       checkMuseumTimingStatus 17 2 = ⟨.in_release_window, true⟩ ∧
       checkMuseumTimingStatus 17 6 = ⟨.after_release_window, false⟩ ∧
       workingCheckMuseumTimingStatus 16 59 = ⟨.before_release, false⟩ ∧
       workingCheckMuseumTimingStatus 17 2 = ⟨.in_release_window, true⟩ ∧
       workingCheckMuseumTimingStatus 17 6 = ⟨.after_release_window, false⟩) := by
  intro h m hm
  refine ⟨⟨?_, ?_, ?_, ?_⟩, ⟨?_, ?_, ?_, ?_⟩, by decide⟩ <;>
    · simp only [checkMuseumTimingStatus, workingCheckMuseumTimingStatus]
      split_ifs <;> simp_all <;> omega

/-- C3 (witness for the amended theorem at the concrete time 16:59). -/
theorem c3_timing_gate_amended_witness :
    (59 ≤ 59) ∧
    ((workingCheckMuseumTimingStatus 16 59).status = Phase.before_release ↔
      16 * 60 + 59 < 17 * 60) :=
  ⟨by decide, ((c3_timing_gate_amended 16 59 (by decide)).2.1).1⟩

/-! ### Claims C4 and C10 — ID-card check digit -/

/-- C4 (counterexample): `validateChineseID` accepts `"00000000000000001x"`
(whose check character is 'X', written in lowercase), while the claim's
condition — 18th character a digit or the literal 'X', and equal to the check
character — is false for that string; so the stated "exactly when" fails. -/
theorem c4_id_checksum_counterexample :
    validateChineseID "00000000000000001x".data = true ∧
    ¬ c4StrictCondition "00000000000000001x".data := by
  constructor
  · decide
  · simp only [c4StrictCondition]
    decide

/-- Auxiliary: setting index 17 of an 18-character ID leaves the check
character (computed from the first 17 characters) unchanged. -/
theorem checkChar_set_17 (s : List Char) (c : Char) : checkChar (s.set 17 c) = checkChar s := by
  unfold checkChar
  rw [take_set_of_le s 17 17 c (Nat.le_refl 17)]

/-- C4 (amended): `validateChineseID` returns true exactly when the input has
length 18, its first 17 characters are digits, its 18th character is a digit,
'X' or lowercase 'x', and its uppercased 18th character equals the weighted
modulus-11 check character; every 17- or 19-character input returns false; and
mutating the last character of a valid ID to any character whose uppercase
differs from the check character returns false. -/
theorem c4_id_checksum_amended :
    ∀ s : List Char,
      (validateChineseID s = true ↔
        (s.length = 18 ∧ (s.take 17).all Char.isDigit = true ∧
         (Char.isDigit (s.getD 17 ' ') = true ∨ s.getD 17 ' ' = 'X' ∨ s.getD 17 ' ' = 'x') ∧
         Char.toUpper (s.getD 17 ' ') = checkChar s)) ∧
      ((s.length = 17 ∨ s.length = 19) → validateChineseID s = false) ∧
      (∀ c : Char, validateChineseID s = true → Char.toUpper c ≠ checkChar s →
        validateChineseID (s.set 17 c) = false) := by
  intro s
  refine ⟨?_, ?_, ?_⟩
  · constructor
    · intro hval
      have h18 : s.length = 18 := by
        by_contra hcon
        simp [validateChineseID, hcon] at hval
      have hfmt : idFormatOk s = true := by
        by_contra hcon
        simp [validateChineseID, h18, hcon] at hval
      have hchk : checkChar s = Char.toUpper (s.getD 17 ' ') := by
        have hred : validateChineseID s = (checkChar s == Char.toUpper (s.getD 17 ' ')) := by
          simp [validateChineseID, h18, hfmt]
        rw [hred] at hval
        exact eq_of_beq hval
      simp only [idFormatOk, Bool.and_eq_true, Bool.or_eq_true, beq_iff_eq] at hfmt
      refine ⟨h18, hfmt.1, ?_, hchk.symm⟩
      rcases hfmt.2 with (h | h) | h
      · exact Or.inl h
      · exact Or.inr (Or.inl h)
      · exact Or.inr (Or.inr h)
    · rintro ⟨h18, hdig, hdisj, hchk⟩
      have hfmt : idFormatOk s = true := by
        simp only [idFormatOk, Bool.and_eq_true, Bool.or_eq_true, beq_iff_eq]
        refine ⟨hdig, ?_⟩
        rcases hdisj with h | h | h
        · exact Or.inl (Or.inl h)
        · exact Or.inl (Or.inr h)
        · exact Or.inr h
      simp [validateChineseID, h18, hfmt, hchk.symm]
  · intro hl
    have hne : s.length ≠ 18 := by omega
    simp [validateChineseID, hne]
  · intro c hval hne
    have h18 : s.length = 18 := by
      by_contra hcon
      simp [validateChineseID, hcon] at hval
    have hset18 : (s.set 17 c).length = 18 := by
      rw [List.length_set]; exact h18
    have hgetc : (s.set 17 c).getD 17 ' ' = c :=
      getD_set_self s 17 c ' ' (by omega)
    unfold validateChineseID
    rw [if_neg (by simp [hset18])]
    by_cases hfmt : idFormatOk (s.set 17 c)
    · rw [if_neg (by simp [hfmt])]
      rw [checkChar_set_17, hgetc]
      simp only [beq_eq_false_iff_ne, ne_eq, beq_iff_eq]
      intro heq
      exact hne heq.symm
    · rw [if_pos (by simp [hfmt])]

/-- C4 (witness for the amended theorem): a 17-character input is rejected, and
mutating the final character of the valid ID `00000000000000001X` to '5'
(whose uppercase differs from the check character 'X') makes it invalid. -/
theorem c4_id_checksum_amended_witness :
    validateChineseID "00000000000000000".data = false ∧
    validateChineseID ("00000000000000001X".data.set 17 '5') = false :=
  ⟨(c4_id_checksum_amended "00000000000000000".data).2.1 (Or.inl (by decide)),
   (c4_id_checksum_amended "00000000000000001X".data).2.2 '5' (by decide) (by decide)⟩

/-- C10: the validator is invariant under the case of the 18th character —
for every 18-character input ending in 'x', the result equals the result on
the same string with the final character replaced by 'X'. -/
theorem c10_lowercase_check_char_invariance :
    ∀ s : List Char, s.length = 18 → s.getD 17 ' ' = 'x' →
      validateChineseID s = validateChineseID (s.set 17 'X') := by
  intro s h18 hx
  have hset18 : (s.set 17 'X').length = 18 := by rw [List.length_set]; exact h18
  have hgetX : (s.set 17 'X').getD 17 ' ' = 'X' := getD_set_self s 17 'X' ' ' (by omega)
  have htake : (s.set 17 'X').take 17 = s.take 17 := take_set_of_le s 17 17 'X' (Nat.le_refl 17)
  unfold validateChineseID idFormatOk
  rw [checkChar_set_17, htake, hgetX, hx]
  simp [h18, hset18]

/-- C10 (witness): concrete instance at the valid lowercase-x ID. -/
theorem c10_lowercase_check_char_invariance_witness :
    validateChineseID "00000000000000001x".data =
      validateChineseID ("00000000000000001x".data.set 17 'X') :=
  c10_lowercase_check_char_invariance "00000000000000001x".data (by decide) (by decide)

/-! ## Booking data model (src/src/services/museumAutomation.ts lines 3-23,
src/unnamed/part_009 lines 4-34) -/

/-- One entry of `visitorDetails`. -/
structure VisitorDetail where
  name : String
  idNumber : String
  idType : String
  age : Option Nat := none
deriving DecidableEq, Repr

/-- `BookingData` (the `ManualBookingData` interface in part_009 has the same shape). -/
structure BookingData where
  visitorName : String
  idNumber : String
  idType : String
  museum : String
  visitDate : String
  timeSlot : String
  visitorDetails : List VisitorDetail
deriving DecidableEq, Repr

/-- `BookingResult`: the `museumResponse` diagnostic object is not modelled. -/
structure BookingResult where
  success : Bool
  bookingReference : Option String := none
  error : Option String := none
deriving DecidableEq, Repr

/-! ## Network and browser oracles

`fetch` is modelled as a function from the request URL to an outcome: either a
thrown transport/timeout error (with its message) or a response with an `ok`
flag and an already-parsed payload.  The oracle is keyed by URL alone; request
bodies/headers are data-dependent but the claims under study only distinguish
responses by endpoint. -/

/-- Fields of a parsed JSON response body (absent fields are `none`/`false`),
plus `text` for the endpoints read via `response.text()`. -/
structure Payload where
  bookingReference : Option String := none
  bookingId : Option String := none
  idValue : Option String := none
  reference : Option String := none
  confirmationCode : Option String := none
  code : Option String := none
  found : Bool := false
  existsFlag : Bool := false
  verified : Bool := false
  booking : Bool := false
  confirmed : Bool := false
  text : String := ""
deriving DecidableEq, Repr

/-- Outcome of one `fetch` call. -/
inductive FetchOutcome where
  | throwErr (msg : String)
  | resp (ok : Bool) (payload : Payload)
deriving DecidableEq, Repr

/-- Behaviour of the puppeteer browser session used by
`MuseumAutomation.attemptBooking`: whether `initialize` throws, which URLs
navigate successfully, the status of the mobile-user-agent retry, element
counts, and the result-page markers. -/
structure BrowserEnv where
  initThrows : Option String := none
  navOk : String → Bool
  mobileRetryStatus : Option Nat := none
  formElementCount : Nat := 0
  altElementCount : Nat := 0
  formFieldsPresent : Bool := false
  successElementFound : Bool := false
  errorElementFound : Bool := false
  bookingRefText : Option String := none
  errorText : Option String := none

/-- Environment of one orchestration run: network, URI encoder, browser,
wall clock (`Date.now()` in ms and an ISO timestamp), the `Date`-derived date
code used by `generateMuseumBookingId`, and the `Math.random()` draws. -/
structure AutomationEnv where
  fetch : String → FetchOutcome
  encodeURIComponent : String → String
  browser : BrowserEnv
  nowMs : Nat
  nowIso : String
  isoDateCode : String → String
  randCode : String
  seqCode : String

/-! ## Strategy executors (src/src/services/museumAutomation.ts) -/

/-- The endpoint list of `tryApiBooking` (lines 115-125). -/
def apiEndpoints : List String :=
  ["https://ticket.sxhm.com/api/booking",
   "https://ticket.sxhm.com/api/book",
   "https://ticket.sxhm.com/api/reserve",
   "https://ticket.sxhm.com/booking",
   "https://ticket.sxhm.com/book",
   "https://ticket.sxhm.com/reserve",
   "https://www.sxhm.com/api/booking",
   "https://www.sxhm.com/api/book",
   "https://www.sxhm.com/booking"]

/-- The `for (const endpoint of apiEndpoints)` loop of `tryApiBooking`: a
thrown fetch is swallowed (`continue`), a non-2xx response falls through to
the next endpoint, the first `ok` response wins with
`result.bookingReference || 'API-' + Date.now()`. -/
def tryApiBookingOver (env : AutomationEnv) : List String → BookingResult
  | [] => { success := false, error := some "No API endpoints available" }
  | e :: rest =>
    match env.fetch e with
    | .throwErr _ => tryApiBookingOver env rest
    | .resp ok p =>
      if ok then
        { success := true, bookingReference := some (jsOrS p.bookingReference ("API-" ++ toString env.nowMs)) }
      else tryApiBookingOver env rest

/-- `MuseumAutomation.tryApiBooking` (lines 110-171). -/
def tryApiBooking (env : AutomationEnv) (_bookingData : BookingData) : BookingResult :=
  tryApiBookingOver env apiEndpoints

/-- The endpoint list of `tryRealMuseumAPI` (lines 1868-1877). -/
def museumAPIEndpoints : List String :=
  ["https://ticket.sxhm.com/api/booking/create",
   "https://ticket.sxhm.com/api/bookings",
   "https://ticket.sxhm.com/quickticket/api/booking",
   "https://ticket.sxhm.com/api/v1/booking",
   "https://ticket.sxhm.com/api/v2/booking",
   "https://www.sxhm.com/api/booking/create",
   "https://booking.sxhm.com/api/appointments",
   "https://api.sxhm.com/v1/bookings"]

/-- The endpoint loop of `tryRealMuseumAPI`: first `ok` response wins with
`result.bookingId || result.id || 'MUSEUM_API_' + Date.now()`. -/
def tryRealMuseumAPIOver (env : AutomationEnv) : List String → BookingResult
  | [] => { success := false, error := some "All museum API endpoints failed" }
  | e :: rest =>
    match env.fetch e with
    | .throwErr _ => tryRealMuseumAPIOver env rest
    | .resp ok p =>
      if ok then
        { success := true,
          bookingReference := some (jsOrS p.bookingId (jsOrS p.idValue ("MUSEUM_API_" ++ toString env.nowMs))) }
      else tryRealMuseumAPIOver env rest

/-- `MuseumAutomation.tryRealMuseumAPI` (lines 1863-1959). -/
def tryRealMuseumAPI (env : AutomationEnv) (_bookingData : BookingData) : BookingResult :=
  tryRealMuseumAPIOver env museumAPIEndpoints

/-- The endpoint list of `tryEnhancedMuseumAPI` (lines 1242-1251). -/
def enhancedAPIs : List String :=
  ["https://ticket.sxhm.com/api/v1/booking",
   "https://ticket.sxhm.com/api/v2/booking",
   "https://api.sxhm.com/booking",
   "https://booking.sxhm.com/api/booking",
   "https://ticket.sxhm.com/wechat/api/booking",
   "https://ticket.sxhm.com/mobile/api/booking",
   "https://ticket.sxhm.com/quickticket/api/booking",
   "https://www.sxhm.com/api/booking"]

/-- The endpoint loop of `tryEnhancedMuseumAPI`: first `ok` response wins with
`data.bookingId || data.reference || 'ENHANCED-' + Date.now()`. -/
def tryEnhancedMuseumAPIOver (env : AutomationEnv) : List String → BookingResult
  | [] => { success := false, error := some "All enhanced museum APIs failed" }
  | e :: rest =>
    match env.fetch e with
    | .throwErr _ => tryEnhancedMuseumAPIOver env rest
    | .resp ok p =>
      if ok then
        { success := true,
          bookingReference := some (jsOrS p.bookingId (jsOrS p.reference ("ENHANCED-" ++ toString env.nowMs))) }
      else tryEnhancedMuseumAPIOver env rest

/-- `MuseumAutomation.tryEnhancedMuseumAPI` (lines 1239-1311). -/
def tryEnhancedMuseumAPI (env : AutomationEnv) (_bookingData : BookingData) : BookingResult :=
  tryEnhancedMuseumAPIOver env enhancedAPIs

/-- `MuseumAutomation.tryWeChatOfficialAccount` (lines 1313-1361): a single
endpoint; any throw or non-`ok`/marker-less outcome yields the fixed failure. -/
def tryWeChatOfficialAccount (env : AutomationEnv) (_bookingData : BookingData) : BookingResult :=
  match env.fetch "https://ticket.sxhm.com/wechat/api/booking" with
  | .throwErr _ => { success := false, error := some "WeChat official account integration failed" }
  | .resp ok p =>
    if ok then
      { success := true, bookingReference := some (jsOrS p.bookingId ("WECHAT-OA-" ++ toString env.nowMs)) }
    else { success := false, error := some "WeChat official account integration failed" }

/-- `MuseumAutomation.tryRealisticMobileApp` (lines 1363-1412). -/
def tryRealisticMobileApp (env : AutomationEnv) (_bookingData : BookingData) : BookingResult :=
  match env.fetch "https://ticket.sxhm.com/mobile/api/booking" with
  | .throwErr _ => { success := false, error := some "Realistic mobile app integration failed" }
  | .resp ok p =>
    if ok then
      { success := true, bookingReference := some (jsOrS p.bookingId ("MOBILE-APP-" ++ toString env.nowMs)) }
    else { success := false, error := some "Realistic mobile app integration failed" }

/-- The endpoint list of `tryDirectClientPlaceBooking` (lines 1680-1686). -/
def directEndpoints : List String :=
  ["https://ticket.sxhm.com/quickticket/booking",
   "https://ticket.sxhm.com/booking/submit",
   "https://ticket.sxhm.com/api/booking/submit",
   "https://www.sxhm.com/booking/submit",
   "https://booking.sxhm.com/submit"]

/-- The success-marker check of `tryDirectClientPlaceBooking` on the response
text: `includes('success') || includes('confirmed') || includes('booking') ||
includes('预约成功') || includes('成功')`. -/
def directMarkerHit (t : String) : Bool :=
  strContains t "success" || strContains t "confirmed" || strContains t "booking" ||
    strContains t "预约成功" || strContains t "成功"

/-- The endpoint loop of `tryDirectClientPlaceBooking`: both request shapes
(form-encoded and JSON) hit the same URL, so with the URL-keyed oracle they
observe the same outcome; a marker hit wins with `DIRECT-` + `Date.now()`. -/
def tryDirectClientPlaceBookingOver (env : AutomationEnv) : List String → BookingResult
  | [] => { success := false, error := some "All direct client place endpoints failed" }
  | e :: rest =>
    match env.fetch e with
    | .throwErr _ => tryDirectClientPlaceBookingOver env rest
    | .resp ok p =>
      if ok && directMarkerHit p.text then
        { success := true, bookingReference := some ("DIRECT-" ++ toString env.nowMs) }
      else tryDirectClientPlaceBookingOver env rest

/-- `MuseumAutomation.tryDirectClientPlaceBooking` (lines 1675-1791). -/
def tryDirectClientPlaceBooking (env : AutomationEnv) (_bookingData : BookingData) : BookingResult :=
  tryDirectClientPlaceBookingOver env directEndpoints

/-! ## Browser-automation strategy (`MuseumAutomation.attemptBooking`,
lines 173-543) -/

/-- The URL cascade tried by `attemptBooking` (lines 185-196). -/
def possibleUrls : List String :=
  ["https://ticket.sxhm.com/quickticket/index.html#/",
   "https://ticket.sxhm.com/quickticket/",
   "https://ticket.sxhm.com/",
   "https://www.sxhm.com/",
   "https://sxhm.com/",
   "http://ticket.sxhm.com/quickticket/index.html#/",
   "http://ticket.sxhm.com/quickticket/",
   "http://ticket.sxhm.com/",
   "http://www.sxhm.com/",
   "http://sxhm.com/"]

/-- Body of `attemptBooking` before its top-level `catch`: API tier first,
then browser initialisation (which may throw), the URL navigation cascade,
the mobile-user-agent retry, the no-element simulated fallback, form filling
(whose `waitForSelector` throws when no form field ever appears), and the
success/error marker scan on the result page. -/
def attemptBookingExc (env : AutomationEnv) (bookingData : BookingData) :
    Except String BookingResult :=
  let apiResult := tryApiBooking env bookingData
  if apiResult.success then .ok apiResult
  else
    match env.browser.initThrows with
    | some msg => .error msg
    | none =>
      let navigationSuccess := possibleUrls.any env.browser.navOk
      let navigationSuccess :=
        if navigationSuccess then true
        else
          match env.browser.mobileRetryStatus with
          | some s => s == 200
          | none => false
      if ¬ navigationSuccess then
        .ok { success := false, error := some "Unable to access museum booking site with any method" }
      else if env.browser.formElementCount == 0 && env.browser.altElementCount == 0 then
        .ok { success := true, bookingReference := some ("SIMULATED-" ++ toString env.nowMs) }
      else if ¬ env.browser.formFieldsPresent then
        .error "waiting for selector input, select, button failed: timeout 10000ms exceeded"
      else if env.browser.successElementFound then
        match env.browser.bookingRefText with
        | some ref => .ok { success := true, bookingReference := some (jsOrS (some ref) ("MUSEUM-" ++ toString env.nowMs)) }
        | none => .ok { success := true, bookingReference := some ("MUSEUM-" ++ toString env.nowMs) }
      else if env.browser.errorElementFound then
        match env.browser.errorText with
        | some msg => .ok { success := false, error := some (jsOrS (some msg) "Booking failed") }
        | none => .ok { success := false, error := some "Booking failed - unknown error" }
      else .ok { success := false, error := some "Unknown booking result" }

/-- `MuseumAutomation.attemptBooking`: the top-level `catch` converts any
thrown error into a failure result prefixed `Automation failed: `. -/
def attemptBooking (env : AutomationEnv) (bookingData : BookingData) : BookingResult :=
  match attemptBookingExc env bookingData with
  | .ok r => r
  | .error e => { success := false, error := some ("Automation failed: " ++ e) }

/-! ## Simulated-booking tier (`MuseumAutomation.trySimulatedMuseumBooking`,
lines 2129-2252) and its reference generator (lines 2254-2265) -/

/-- JS `String.prototype.replace` with a single-character pattern: replaces
only the first occurrence. -/
def replaceFirst : List Char → Char → List Char
  | [], _ => []
  | a :: rest, c => if a = c then rest else a :: replaceFirst rest c

/-- `timeSlot.replace(':', '').replace('-', '')` — first occurrences only. -/
def timeCodeOf (timeSlot : String) : String :=
  ⟨replaceFirst (replaceFirst timeSlot.data ':') '-'⟩

/-- `generateMuseumBookingId`: museum code, ISO-derived date code (oracle),
time code, random code and 4-digit sequence. -/
def generateMuseumBookingId (env : AutomationEnv) (bookingData : BookingData) : String :=
  (if bookingData.museum = "main" then "SXHM" else "QHHM") ++
    env.isoDateCode bookingData.visitDate ++ timeCodeOf bookingData.timeSlot ++
    env.randCode ++ env.seqCode

/-- `trySimulatedMuseumBooking`: always returns `success: true` with the
generated reference; the timing-dependent `status`/`note` fields only go into
the unmodelled `museumResponse`. -/
def trySimulatedMuseumBooking (env : AutomationEnv) (bookingData : BookingData) : BookingResult :=
  { success := true, bookingReference := some (generateMuseumBookingId env bookingData) }

/-! ## Verification subsystem
(`MuseumAutomation.verifyBookingInClientPlace`, lines 1962-2017) -/

/-- The endpoint list of `verifyBookingInClientPlace` (lines 1967-1976). -/
def clientPlaceEndpoints : List String :=
  ["https://ticket.sxhm.com/api/bookings/verify",
   "https://ticket.sxhm.com/api/booking/verify",
   "https://ticket.sxhm.com/quickticket/api/verify",
   "https://ticket.sxhm.com/api/v1/bookings/verify",
   "https://ticket.sxhm.com/api/v2/bookings/verify",
   "https://www.sxhm.com/api/bookings/verify",
   "https://booking.sxhm.com/api/verify",
   "https://api.sxhm.com/v1/bookings/verify"]

/-- The GET URL built for one verification endpoint:
`${endpoint}?bookingId=${bookingId}&visitorName=${encodeURIComponent(visitorName)}&idNumber=${idNumber}`. -/
def verifyUrl (env : AutomationEnv) (endpoint bookingId visitorName idNumber : String) : String :=
  endpoint ++ "?bookingId=" ++ bookingId ++ "&visitorName=" ++
    env.encodeURIComponent visitorName ++ "&idNumber=" ++ idNumber

/-- Whether one endpoint's outcome counts as a confirmation:
`response.ok` and `result.found || result.exists || result.verified`. -/
def confirmsOutcome : FetchOutcome → Bool
  | .throwErr _ => false
  | .resp ok p => ok && (p.found || p.existsFlag || p.verified)

/-- The endpoint loop of `verifyBookingInClientPlace`, instrumented with the
list of endpoints actually consulted (in order): stops at the first
confirming endpoint, otherwise continues; exhaustion yields `false`. -/
def verifyOver (env : AutomationEnv) (bookingId visitorName idNumber : String) :
    List String → Bool × List String
  | [] => (false, [])
  | e :: rest =>
    if confirmsOutcome (env.fetch (verifyUrl env e bookingId visitorName idNumber)) then
      (true, [e])
    else
      let r := verifyOver env bookingId visitorName idNumber rest
      (r.1, e :: r.2)

/-- `verifyBookingInClientPlace` with its consulted-endpoint trace. -/
def verifyBookingInClientPlaceT (env : AutomationEnv) (bookingId visitorName idNumber : String) :
    Bool × List String :=
  verifyOver env bookingId visitorName idNumber clientPlaceEndpoints

/-- `MuseumAutomation.verifyBookingInClientPlace`: the returned boolean. -/
def verifyBookingInClientPlace (env : AutomationEnv) (bookingId visitorName idNumber : String) : Bool :=
  (verifyBookingInClientPlaceT env bookingId visitorName idNumber).1

/-! ## Manual-fallback ticket generator (`ManualMuseumBooking`,
src/unnamed/part_009) -/

/-- `ManualBookingResult` (part_009 lines 29-34). -/
structure ManualBookingResult where
  success : Bool
  bookingReference : Option String := none
  error : Option String := none
  instructions : Option String := none
deriving DecidableEq, Repr

/-- `BookingRecord` (part_009 lines 4-12): one entry of the
`museum-bookings.json` durable log. -/
structure BookingRecord where
  id : String
  timestamp : String
  status : String
  data : BookingData
  instructions : Option String := none
  officialReference : Option String := none
  updatedAt : Option String := none
deriving DecidableEq, Repr

/-- Default used for out-of-range `getD` reads on the log. -/
def emptyBookingRecord : BookingRecord :=
  { id := "", timestamp := "", status := "",
    data := { visitorName := "", idNumber := "", idType := "", museum := "",
              visitDate := "", timeSlot := "", visitorDetails := [] } }

/-- The museum display name used in the instruction packet (part_009 lines 70-72). -/
def museumDisplayName (museum : String) : String :=
  if museum = "main" then
    "Shaanxi History Museum (Xiaozhai East Road, Yanta District Number 91)"
  else
    "Qin and Han Dynasties Museum of Shaanxi History Museum (East Section of lan chi 3rd Road of Qin and Han Dynasties New City of Xi\x27an-Xian New Area)"

/-- One line of the additional-visitors block: note `visitor.age || 'Not specified'`
treats age 0 as unspecified (JS falsiness). -/
def visitorLine (i : Nat) (v : VisitorDetail) : String :=
  "\n" ++ toString (i + 1) ++ ". Name: " ++ v.name ++
    "\n   ID: " ++ v.idNumber ++
    "\n   Type: " ++ v.idType ++
    "\n   Age: " ++ (match v.age with
                     | some a => if a = 0 then "Not specified" else toString a
                     | none => "Not specified") ++ "\n"

/-- `ManualMuseumBooking.generateBookingInstructions` (part_009 lines 69-108):
the human-readable instruction packet, trimmed like the template literal. -/
def generateBookingInstructions (bookingData : BookingData) (nowMs : Nat) : String :=
  ("\nMANUAL BOOKING INSTRUCTIONS\n============================\n\nMuseum: " ++
    museumDisplayName bookingData.museum ++
    "\nDate: " ++ bookingData.visitDate ++
    "\nTime Slot: " ++ bookingData.timeSlot ++
    "\n\nVisitor Information:\n- Name: " ++ bookingData.visitorName ++
    "\n- ID Number: " ++ bookingData.idNumber ++
    "\n- ID Type: " ++ bookingData.idType ++
    "\n\nAdditional Visitors:\n" ++
    String.join (bookingData.visitorDetails.mapIdx visitorLine) ++
    "\n\nSTEPS TO COMPLETE BOOKING:\n1. Go to museum\x27s official WeChat account\n2. Navigate to ticket reservation system\n3. Select visit date: " ++
    bookingData.visitDate ++
    "\n4. Select time slot: " ++ bookingData.timeSlot ++
    "\n5. Add visitor information as listed above\n6. Complete the booking process\n7. Note the booking reference number\n8. Update this record with the official booking reference\n\nBOOKING REFERENCE: MANUAL-" ++
    toString nowMs ++
    "\nSTATUS: Pending manual completion\n        ").trim

/-- The record `ManualMuseumBooking.attemptBooking` builds (part_009 lines 44-50). -/
def manualRecord (bookingData : BookingData) (nowMs : Nat) (nowIso : String) : BookingRecord :=
  { id := "MANUAL-" ++ toString nowMs,
    timestamp := nowIso,
    status := "pending_manual_booking",
    data := bookingData,
    instructions := some (generateBookingInstructions bookingData nowMs) }

/-- `ManualMuseumBooking.attemptBooking` (part_009 lines 39-67): appends the
instruction record to the durable log (`saveBookingRecord` reads the JSON file,
pushes, rewrites) and returns success with the record id as reference.  The
only failure path in the source is a thrown filesystem error; the log is
modelled as a pure value, so the append always succeeds. -/
def manualAttemptBooking (bookingData : BookingData) (nowMs : Nat) (nowIso : String)
    (log : List BookingRecord) : ManualBookingResult × List BookingRecord :=
  let record := manualRecord bookingData nowMs nowIso
  ({ success := true,
     bookingReference := some record.id,
     instructions := record.instructions }, log ++ [record])

/-- `ManualMuseumBooking.updateBookingStatus` (part_009 lines 149-173):
`bookings.find(b => b.id === bookingId)`; when found, mutate `status`,
`officialReference` (only when truthy — `if (officialReference)`), and
`updatedAt`; when not found, the array is rewritten unchanged. -/
def updateBookingStatus (log : List BookingRecord) (bookingId status : String)
    (officialReference : Option String) (nowIso : String) : List BookingRecord :=
  match lookupIdxBy (fun b => b.id == bookingId) log with
  | none => log
  | some i =>
    let b := log.getD i emptyBookingRecord
    log.set i
      { b with
        status := status,
        officialReference :=
          match officialReference with
          | some r => if r = "" then b.officialReference else some r
          | none => b.officialReference,
        updatedAt := some nowIso }

/-! ## Urgent manual tier (`MuseumAutomation.createVerifiedManualBooking`,
lines 1605-1673): retries the direct client-place booking once, then stores a
manual instruction record (via `manualMuseumBooking.attemptBooking`, ignoring
its result) and returns success with a `VERIFIED-` reference. -/

def createVerifiedManualBooking (env : AutomationEnv) (bookingData : BookingData)
    (log : List BookingRecord) : BookingResult × List BookingRecord :=
  let direct := tryDirectClientPlaceBooking env bookingData
  if direct.success then (direct, log)
  else
    let m := manualAttemptBooking bookingData env.nowMs env.nowIso log
    ({ success := true, bookingReference := some ("VERIFIED-" ++ toString env.nowMs) }, m.2)

/-! ## Escalation orchestrators -/

/-- Strategy tiers of `MuseumAutomation.createGuaranteedClientPlaceBooking`
(lines 2020-2126), in the order the source tries them. -/
inductive Tier
  | realApi
  | browserAuto
  | simulated
  | directCP
  | enhancedApi
  | wechatOA
  | mobileApp
  | manualFallback
deriving DecidableEq, Repr

/-- The fixed priority order of the tiers. -/
def tierOrder : List Tier :=
  [.realApi, .browserAuto, .simulated, .directCP, .enhancedApi, .wechatOA, .mobileApp, .manualFallback]

/-- Position of a tier in the priority order. -/
def tierIdx : Tier → Nat
  | .realApi => 0
  | .browserAuto => 1
  | .simulated => 2
  | .directCP => 3
  | .enhancedApi => 4
  | .wechatOA => 5
  | .mobileApp => 6
  | .manualFallback => 7

/-- The result each tier's executor produces in environment `env` (the manual
tier's result is the first component of `createVerifiedManualBooking`). -/
def strategyResultAt (env : AutomationEnv) (bookingData : BookingData)
    (log : List BookingRecord) : Tier → BookingResult
  | .realApi => tryRealMuseumAPI env bookingData
  | .browserAuto => attemptBooking env bookingData
  | .simulated => trySimulatedMuseumBooking env bookingData
  | .directCP => tryDirectClientPlaceBooking env bookingData
  | .enhancedApi => tryEnhancedMuseumAPI env bookingData
  | .wechatOA => tryWeChatOfficialAccount env bookingData
  | .mobileApp => tryRealisticMobileApp env bookingData
  | .manualFallback => (createVerifiedManualBooking env bookingData log).1

/-- Truthiness test on the booking reference used at line 2031
(`if (realApiResult.bookingReference)`). -/
def refTruthy (r : BookingResult) : Bool :=
  match r.bookingReference with
  | some s => decide (s ≠ "")
  | none => false

/-- `MuseumAutomation.createGuaranteedClientPlaceBooking` (lines 2020-2126),
instrumented with the list of strategy tiers invoked and threading the manual
log.  On a real-API success the verification subsystem is consulted (not a
strategy tier); its outcome only amends the unmodelled `museumResponse`, so
the result value is returned unchanged.  The same holds for the
`verifyClientPlaceBooking` call after an alternative-approach success. -/
def createGuaranteedClientPlaceBooking (env : AutomationEnv) (bookingData : BookingData)
    (log : List BookingRecord) : BookingResult × List Tier × List BookingRecord :=
  let r1 := tryRealMuseumAPI env bookingData
  if r1.success then
    let _ :=
      if refTruthy r1 then
        verifyBookingInClientPlace env (jsOrS r1.bookingReference "")
          bookingData.visitorName bookingData.idNumber
      else false
    (r1, [Tier.realApi], log)
  else
    let r2 := attemptBooking env bookingData
    if r2.success then (r2, tierOrder.take 2, log)
    else
      let r3 := trySimulatedMuseumBooking env bookingData
      if r3.success then (r3, tierOrder.take 3, log)
      else
        let r4 := tryDirectClientPlaceBooking env bookingData
        if r4.success then (r4, tierOrder.take 4, log)
        else
          let r5 := tryEnhancedMuseumAPI env bookingData
          if r5.success then (r5, tierOrder.take 5, log)
          else
            let r6 := tryWeChatOfficialAccount env bookingData
            if r6.success then (r6, tierOrder.take 6, log)
            else
              let r7 := tryRealisticMobileApp env bookingData
              if r7.success then (r7, tierOrder.take 7, log)
              else
                let m := createVerifiedManualBooking env bookingData log
                (m.1, tierOrder, m.2)

/-- Strategy tiers of `WorkingMuseumIntegration.createRealMuseumBooking`
(src/unnamed/part_007 lines 34-78). -/
inductive WTier
  | website
  | workingBooking
  | wechat
deriving DecidableEq, Repr

/-- Priority order of the part_007 tiers. -/
def wTierOrder : List WTier := [.website, .workingBooking, .wechat]

/-- Position of a part_007 tier in the priority order. -/
def wTierIdx : WTier → Nat
  | .website => 0
  | .workingBooking => 1
  | .wechat => 2

/-- Result shape of part_007 strategies (`museumBookingId` instead of
`bookingReference`; `bookingDetails` unmodelled). -/
structure WBookingResult where
  success : Bool
  museumBookingId : Option String := none
  confirmationCode : Option String := none
  error : Option String := none
deriving DecidableEq, Repr

/-- `WorkingMuseumIntegration.createRealMuseumBooking`, instrumented with the
invoked tiers; each tier's behaviour (browser navigation, generated working
booking, WeChat record) is environment-dependent, so the tiers are supplied as
an oracle from tier to result. -/
def createRealMuseumBooking (strat : WTier → WBookingResult) : WBookingResult × List WTier :=
  let r1 := strat .website
  if r1.success then (r1, [WTier.website])
  else
    let r2 := strat .workingBooking
    if r2.success then (r2, wTierOrder.take 2)
    else
      let r3 := strat .wechat
      if r3.success then (r3, wTierOrder)
      else ({ success := false, error := some "All museum integration methods failed" }, wTierOrder)

/-! ## The createAppointment fallback chain (src/unnamed/part_011 lines 219-258):
when the automation result is a failure, run the manual fallback; when the
manual fallback succeeds, return success with its reference; otherwise return
a simulated success. -/

def resolveAutomationResult (automationResult : BookingResult) (bookingData : BookingData)
    (nowMs : Nat) (nowIso : String) (log : List BookingRecord) :
    BookingResult × List BookingRecord :=
  if automationResult.success then (automationResult, log)
  else
    let m := manualAttemptBooking bookingData nowMs nowIso log
    if m.1.success then
      ({ success := true, bookingReference := m.1.bookingReference }, m.2)
    else
      ({ success := true, bookingReference := some ("SIMULATED-" ++ toString nowMs) }, m.2)

/-! ## Client-place verification store
(`ClientPlaceStorageService.verifyClientPlaceBooking`,
src/src/services/clientPlaceStorage.ts lines 154-208) -/

/-- One document of the `ClientPlaceBooking` Mongo collection (the fields the
operation touches; schema defaults `verificationAttempts` to 0). -/
structure ClientPlaceBooking where
  bookingId : String
  museumBookingId : String
  confirmationCode : String
  visitorName : String
  idNumber : String
  clientPlaceStatus : String
  verificationAttempts : Nat := 0
  lastVerificationAttempt : Option Nat := none
  verifiedAt : Option Nat := none
deriving DecidableEq, Repr

/-- Default used for out-of-range `getD` reads on the collection. -/
def emptyClientPlaceBooking : ClientPlaceBooking :=
  { bookingId := "", museumBookingId := "", confirmationCode := "",
    visitorName := "", idNumber := "", clientPlaceStatus := "" }

/-- `verifyClientPlaceBooking`: `findOne({ bookingId })`; absent → failure
without touching the store; present → increment `verificationAttempts`, stamp
`lastVerificationAttempt`, consult `museumAutomation.verifyBookingInClientPlace`,
and on confirmation set `clientPlaceStatus = 'verified'` and `verifiedAt`;
either way the document is saved.  Returns the found/confirmed flag and the
updated store. -/
def verifyClientPlaceBookingStore (env : AutomationEnv) (store : List ClientPlaceBooking)
    (bookingId : String) : Bool × List ClientPlaceBooking :=
  match lookupIdxBy (fun b => b.bookingId == bookingId) store with
  | none => (false, store)
  | some i =>
    let b := store.getD i emptyClientPlaceBooking
    let b1 := { b with
                verificationAttempts := b.verificationAttempts + 1,
                lastVerificationAttempt := some env.nowMs }
    if verifyBookingInClientPlace env b.museumBookingId b.visitorName b.idNumber then
      (true, store.set i { b1 with clientPlaceStatus := "verified", verifiedAt := some env.nowMs })
    else
      (false, store.set i b1)

/-! ## Concrete fixtures shared by witnesses -/

/-- A concrete booking request used in witnesses. -/
def sampleBookingData : BookingData :=
  { visitorName := "Zhang San", idNumber := "00000000000000001X", idType := "id_card",
    museum := "main", visitDate := "2026-10-12", timeSlot := "8:30-10:30",
    visitorDetails := [{ name := "Zhang San", idNumber := "00000000000000001X", idType := "id_card" }] }

/-- A browser that never navigates successfully and finds nothing. -/
def sampleBrowser : BrowserEnv := { navOk := fun _ => false }

/-- Fixture environment: every endpoint answers HTTP success with the payload
`{bookingId: "SM123", confirmationCode: "ABC"}` (and no found/verified flags). -/
def sampleEnv : AutomationEnv :=
  { fetch := fun _ => .resp true { bookingId := some "SM123", confirmationCode := some "ABC" },
    encodeURIComponent := id,
    browser := sampleBrowser,
    nowMs := 1,
    nowIso := "2026-10-11T00:00:00.000Z",
    isoDateCode := fun _ => "261012",
    randCode := "RNDCD",
    seqCode := "0001" }

/-- Fixture environment: every fetch throws `ECONNREFUSED`. -/
def econnRefusedEnv : AutomationEnv :=
  { sampleEnv with fetch := fun _ => .throwErr "ECONNREFUSED" }

/-- Fixture environment: unreachable network and a browser whose
initialisation throws. -/
def initBoomEnv : AutomationEnv :=
  { econnRefusedEnv with browser := { navOk := fun _ => false, initThrows := some "boom" } }

/-- A `MANUAL-`-prefixed reference is never the empty string. -/
theorem manualRef_ne_empty (s : String) : ("MANUAL-" ++ s) ≠ "" := by
  intro h
  have hl := congrArg String.length h
  rw [String.length_append] at hl
  simp at hl
  exact absurd hl.1 (by decide)

/-! ### Claim C1 — manual-fallback guarantee -/

/-- C1: whenever the automated result handed to the `createAppointment`
fallback chain is a failure, the chain still returns `success = true` with the
non-empty synthesized `MANUAL-` reference, and the manual-fallback tier has
appended its human-readable instruction record to the durable manual-booking
log; moreover `ManualMuseumBooking.attemptBooking` itself always returns a
success result. -/
theorem c1_manual_fallback_guarantee :
    ∀ (automationResult : BookingResult) (bookingData : BookingData)
      (nowMs : Nat) (nowIso : String) (log : List BookingRecord),
      automationResult.success = false →
      ((resolveAutomationResult automationResult bookingData nowMs nowIso log).1.success = true ∧
       (resolveAutomationResult automationResult bookingData nowMs nowIso log).1.bookingReference =
         some ("MANUAL-" ++ toString nowMs) ∧
       ("MANUAL-" ++ toString nowMs) ≠ "" ∧
       (resolveAutomationResult automationResult bookingData nowMs nowIso log).2 =
         log ++ [manualRecord bookingData nowMs nowIso] ∧
       (manualRecord bookingData nowMs nowIso).instructions =
         some (generateBookingInstructions bookingData nowMs)) ∧
      (∀ (d : BookingData) (n : Nat) (iso : String) (l : List BookingRecord),
        (manualAttemptBooking d n iso l).1.success = true) := by
  intro ar bookingData nowMs nowIso log hfail
  refine ⟨⟨?_, ?_, manualRef_ne_empty _, ?_, rfl⟩, fun d n iso l => rfl⟩ <;>
    simp [resolveAutomationResult, manualAttemptBooking, manualRecord, hfail]

/-- C1 (witness): the guarantee at a concrete failed automation result. -/
theorem c1_manual_fallback_guarantee_witness :
    (resolveAutomationResult { success := false } sampleBookingData 1 "t0" []).1.success = true ∧
    (resolveAutomationResult { success := false } sampleBookingData 1 "t0" []).2 =
      [manualRecord sampleBookingData 1 "t0"] := by
  have h := c1_manual_fallback_guarantee { success := false } sampleBookingData 1 "t0" [] rfl
  exact ⟨h.1.1, by simpa using h.1.2.2.2.1⟩

/-! ### Claim C2 — escalation order and short-circuit -/

/-- C2: in both orchestrators, whenever some strategy tier succeeds, no
strictly later tier in the fixed priority order is ever invoked within that
run (the run stops at the first success). -/
theorem c2_escalation_short_circuit :
    (∀ (strat : WTier → WBookingResult) (t t' : WTier),
       (strat t).success = true → wTierIdx t < wTierIdx t' →
       t' ∉ (createRealMuseumBooking strat).2) ∧
    (∀ (env : AutomationEnv) (bookingData : BookingData) (log : List BookingRecord)
       (t t' : Tier),
       (strategyResultAt env bookingData log t).success = true → tierIdx t < tierIdx t' →
       t' ∉ (createGuaranteedClientPlaceBooking env bookingData log).2.1) := by
  constructor
  · intro strat t t' hsucc hlt
    simp only [createRealMuseumBooking]
    split_ifs with h1 h2 h3 <;>
      cases t <;> cases t' <;> simp_all [wTierIdx, wTierOrder]
  · intro env bookingData log t t' hsucc hlt
    simp only [createGuaranteedClientPlaceBooking]
    split_ifs with h1 h2 h3 h4 h5 h6 h7 <;>
      cases t <;> cases t' <;>
        simp_all [tierIdx, tierOrder, strategyResultAt, createVerifiedManualBooking]

/-- C2 (witness): with the fixture environment, the first tier succeeds in
both orchestrators and the later tiers (WeChat tier, manual fallback) are not
invoked. -/
theorem c2_escalation_short_circuit_witness :
    ((fun _ => { success := true } : WTier → WBookingResult) WTier.website).success = true ∧
    WTier.wechat ∉ (createRealMuseumBooking (fun _ => { success := true })).2 ∧
    (strategyResultAt sampleEnv sampleBookingData [] Tier.realApi).success = true ∧
    Tier.manualFallback ∉ (createGuaranteedClientPlaceBooking sampleEnv sampleBookingData []).2.1 :=
  ⟨rfl,
   c2_escalation_short_circuit.1 (fun _ => { success := true }) .website .wechat rfl (by decide),
   rfl,
   c2_escalation_short_circuit.2 sampleEnv sampleBookingData [] .realApi .manualFallback rfl (by decide)⟩

/-! ### Claim C5 — direct-API end-to-end scenario -/

/-- C5: against the fixture environment whose endpoints answer HTTP success
with `{bookingId: "SM123", confirmationCode: "ABC"}`, the orchestration
returns `success = true` with booking reference `SM123` via the direct-API
tier alone, and no manual-booking record is created (the log is unchanged and
the manual tier is not among the invoked tiers). -/
theorem c5_direct_api_success_scenario :
    ∀ (bookingData : BookingData) (log : List BookingRecord),
      (createGuaranteedClientPlaceBooking sampleEnv bookingData log).1 =
        { success := true, bookingReference := some "SM123" } ∧
      (createGuaranteedClientPlaceBooking sampleEnv bookingData log).2.1 = [Tier.realApi] ∧
      (createGuaranteedClientPlaceBooking sampleEnv bookingData log).2.2 = log := by
  intro bookingData log
  exact ⟨rfl, rfl, rfl⟩

/-! ### Claim C6 — verification operation -/

theorem verifyOver_found_iff (env : AutomationEnv) (bookingId visitorName idNumber : String) :
    ∀ l : List String,
      (verifyOver env bookingId visitorName idNumber l).1 = true ↔
        ∃ e ∈ l, confirmsOutcome (env.fetch (verifyUrl env e bookingId visitorName idNumber)) = true := by
  intro l
  induction l with
  | nil => simp [verifyOver]
  | cons e rest ih =>
    by_cases hc : confirmsOutcome (env.fetch (verifyUrl env e bookingId visitorName idNumber)) = true
    · simp [verifyOver, hc]
    · simp only [verifyOver, if_neg hc]
      constructor
      · intro h
        obtain ⟨x, hx, hxc⟩ := ih.mp h
        exact ⟨x, List.mem_cons_of_mem e hx, hxc⟩
      · rintro ⟨x, hx, hxc⟩
        rcases List.mem_cons.mp hx with rfl | hx'
        · exact absurd hxc hc
        · exact ih.mpr ⟨x, hx', hxc⟩

theorem verifyOver_consulted_initseg (env : AutomationEnv) (bookingId visitorName idNumber : String) :
    ∀ l : List String, (verifyOver env bookingId visitorName idNumber l).2 <+: l := by
  intro l
  induction l with
  | nil => simp [verifyOver]
  | cons e rest ih =>
    by_cases hc : confirmsOutcome (env.fetch (verifyUrl env e bookingId visitorName idNumber)) = true
    · simp only [verifyOver, if_pos hc]
      exact ⟨rest, rfl⟩
    · simp only [verifyOver, if_neg hc]
      obtain ⟨t, ht⟩ := ih
      exact ⟨t, by simp [ht]⟩

theorem verifyOver_stops_at_confirmation (env : AutomationEnv)
    (bookingId visitorName idNumber : String) :
    ∀ (l : List String) (k : Nat), k < l.length →
      confirmsOutcome (env.fetch (verifyUrl env (l.getD k "") bookingId visitorName idNumber)) = true →
      (verifyOver env bookingId visitorName idNumber l).2.length ≤ k + 1 := by
  intro l
  induction l with
  | nil => intro k hk; simp at hk
  | cons e rest ih =>
    intro k hk hconf
    by_cases hc : confirmsOutcome (env.fetch (verifyUrl env e bookingId visitorName idNumber)) = true
    · simp [verifyOver, hc]
    · cases k with
      | zero => exact absurd (by simpa [List.getD] using hconf) hc
      | succ k' =>
        simp only [verifyOver, if_neg hc, List.length_cons]
        have := ih k' (by simpa using hk) (by simpa [List.getD] using hconf)
        omega

/-- C6: the verification operation consults the candidate endpoints in
priority order, reports `found = true` exactly when some endpoint answers with
a found/exists/verified marker, reports `found = false` exactly when no
endpoint confirms, and stops at the first confirming endpoint; the exported
boolean is the instrumented run's flag (the operation is total — every fetch
outcome, including a thrown transport error, is absorbed into `false`). -/
theorem c6_verification_contract :
    ∀ (env : AutomationEnv) (bookingId visitorName idNumber : String),
      ((verifyBookingInClientPlaceT env bookingId visitorName idNumber).1 = true ↔
        ∃ e ∈ clientPlaceEndpoints,
          confirmsOutcome (env.fetch (verifyUrl env e bookingId visitorName idNumber)) = true) ∧
      ((verifyBookingInClientPlaceT env bookingId visitorName idNumber).1 = false ↔
        ∀ e ∈ clientPlaceEndpoints,
          confirmsOutcome (env.fetch (verifyUrl env e bookingId visitorName idNumber)) = false) ∧
      (verifyBookingInClientPlaceT env bookingId visitorName idNumber).2 <+: clientPlaceEndpoints ∧
      (∀ k : Nat, k < clientPlaceEndpoints.length →
        confirmsOutcome (env.fetch (verifyUrl env (clientPlaceEndpoints.getD k "")
          bookingId visitorName idNumber)) = true →
        (verifyBookingInClientPlaceT env bookingId visitorName idNumber).2.length ≤ k + 1) ∧
      verifyBookingInClientPlace env bookingId visitorName idNumber =
        (verifyBookingInClientPlaceT env bookingId visitorName idNumber).1 := by
  intro env bookingId visitorName idNumber
  refine ⟨verifyOver_found_iff env bookingId visitorName idNumber clientPlaceEndpoints, ?_,
    verifyOver_consulted_initseg env bookingId visitorName idNumber clientPlaceEndpoints,
    verifyOver_stops_at_confirmation env bookingId visitorName idNumber clientPlaceEndpoints,
    rfl⟩
  have hiff := verifyOver_found_iff env bookingId visitorName idNumber clientPlaceEndpoints
  constructor
  · intro hfalse e he
    by_contra hc
    have : (verifyBookingInClientPlaceT env bookingId visitorName idNumber).1 = true :=
      hiff.mpr ⟨e, he, by simpa using hc⟩
    rw [hfalse] at this
    exact Bool.false_ne_true this
  · intro hall
    by_contra hne
    have htrue : (verifyBookingInClientPlaceT env bookingId visitorName idNumber).1 = true := by
      cases hb : (verifyBookingInClientPlaceT env bookingId visitorName idNumber).1
      · exact absurd hb hne
      · rfl
    obtain ⟨e, he, hc⟩ := hiff.mp htrue
    rw [hall e he] at hc
    exact Bool.false_ne_true hc

/-- Fixture environment whose endpoints all answer with a `found` marker. -/
def sampleEnvConfirm : AutomationEnv :=
  { sampleEnv with fetch := fun _ => .resp true { found := true } }

/-- C6 (witness): with an environment whose endpoints all confirm, the first
endpoint already confirms and the consulted list stops at length 1; with the
all-throwing environment, `found` is `false`. -/
theorem c6_verification_contract_witness :
    (verifyBookingInClientPlaceT sampleEnvConfirm "B1" "N1" "I1").2.length ≤ 0 + 1 ∧
    (verifyBookingInClientPlaceT econnRefusedEnv "B1" "N1" "I1").1 = false :=
  ⟨(c6_verification_contract sampleEnvConfirm "B1" "N1" "I1").2.2.2.1 0 (by decide) rfl,
   (c6_verification_contract econnRefusedEnv "B1" "N1" "I1").2.1.mpr (fun _ _ => rfl)⟩

/-! ### Claim C7 — verification-attempt counter and verified-status stability -/

/-- C7: on a store containing a record with the given `bookingId`, one call to
`verifyClientPlaceBooking` increments that record's `verificationAttempts` by
exactly one (leaving the store size and the record's `bookingId` unchanged), a
record already in status `verified` is never moved out of `verified`, and a
second call with the same identifiers increments the counter by exactly two in
total. -/
theorem c7_verification_attempt_counter :
    ∀ (env : AutomationEnv) (store : List ClientPlaceBooking) (bookingId : String) (i : Nat),
      lookupIdxBy (fun b => b.bookingId == bookingId) store = some i →
      ((verifyClientPlaceBookingStore env store bookingId).2.length = store.length ∧
       ((verifyClientPlaceBookingStore env store bookingId).2.getD i emptyClientPlaceBooking).verificationAttempts =
         (store.getD i emptyClientPlaceBooking).verificationAttempts + 1 ∧
       ((verifyClientPlaceBookingStore env store bookingId).2.getD i emptyClientPlaceBooking).bookingId =
         (store.getD i emptyClientPlaceBooking).bookingId ∧
       ((store.getD i emptyClientPlaceBooking).clientPlaceStatus = "verified" →
         ((verifyClientPlaceBookingStore env store bookingId).2.getD i emptyClientPlaceBooking).clientPlaceStatus =
           "verified") ∧
       (∀ env2 : AutomationEnv,
         ((verifyClientPlaceBookingStore env2
             (verifyClientPlaceBookingStore env store bookingId).2 bookingId).2.getD i
             emptyClientPlaceBooking).verificationAttempts =
           (store.getD i emptyClientPlaceBooking).verificationAttempts + 2)) := by
  intro env store bookingId i hidx
  have hlen : i < store.length := lookupIdxBy_lt_length _ store i hidx
  -- shape of one call on a store `st` whose lookup finds index `j`
  have onecall : ∀ (e : AutomationEnv) (st : List ClientPlaceBooking) (j : Nat),
      lookupIdxBy (fun b => b.bookingId == bookingId) st = some j →
      ∃ bNew : ClientPlaceBooking,
        (verifyClientPlaceBookingStore e st bookingId).2 = st.set j bNew ∧
        bNew.verificationAttempts = (st.getD j emptyClientPlaceBooking).verificationAttempts + 1 ∧
        bNew.bookingId = (st.getD j emptyClientPlaceBooking).bookingId ∧
        ((st.getD j emptyClientPlaceBooking).clientPlaceStatus = "verified" →
          bNew.clientPlaceStatus = "verified") := by
    intro e st j hj
    simp only [verifyClientPlaceBookingStore, hj]
    by_cases hv : verifyBookingInClientPlace e
        (st.getD j emptyClientPlaceBooking).museumBookingId
        (st.getD j emptyClientPlaceBooking).visitorName
        (st.getD j emptyClientPlaceBooking).idNumber = true
    · rw [if_pos hv]
      exact ⟨_, rfl, rfl, rfl, fun _ => rfl⟩
    · rw [if_neg hv]
      exact ⟨_, rfl, rfl, rfl, fun h => h⟩
  obtain ⟨b1, hst1, hatt1, hid1, hstat1⟩ := onecall env store i hidx
  have hmatch : (b1.bookingId == bookingId) = true := by
    rw [hid1]
    exact lookupIdxBy_getD _ emptyClientPlaceBooking store i hidx
  have hidx1 : lookupIdxBy (fun b => b.bookingId == bookingId)
      (verifyClientPlaceBookingStore env store bookingId).2 = some i := by
    rw [hst1]
    exact lookupIdxBy_set _ store i b1 hidx hmatch
  have hget1 : (verifyClientPlaceBookingStore env store bookingId).2.getD i emptyClientPlaceBooking = b1 := by
    rw [hst1]
    exact getD_set_self store i b1 emptyClientPlaceBooking hlen
  refine ⟨by rw [hst1, List.length_set], by rw [hget1]; exact hatt1,
    by rw [hget1]; exact hid1, fun hv => by rw [hget1]; exact hstat1 hv, ?_⟩
  intro env2
  obtain ⟨b2, hst2, hatt2, _, _⟩ := onecall env2 (verifyClientPlaceBookingStore env store bookingId).2 i hidx1
  have hlen1 : i < ((verifyClientPlaceBookingStore env store bookingId).2).length := by
    rw [hst1, List.length_set]
    exact hlen
  have hget2 : (verifyClientPlaceBookingStore env2
      (verifyClientPlaceBookingStore env store bookingId).2 bookingId).2.getD i
      emptyClientPlaceBooking = b2 := by
    rw [hst2]
    exact getD_set_self _ i b2 emptyClientPlaceBooking hlen1
  rw [hget2, hatt2, hget1, hatt1]

/-- Fixture store: one record in status `verified` with two prior attempts. -/
def sampleStore : List ClientPlaceBooking :=
  [{ bookingId := "B1", museumBookingId := "SM1", confirmationCode := "C1",
     visitorName := "N1", idNumber := "I1", clientPlaceStatus := "verified",
     verificationAttempts := 2 }]

/-- C7 (witness): two failing verification calls on the fixture store take the
counter from 2 to 4 and leave the record `verified`. -/
theorem c7_verification_attempt_counter_witness :
    ((verifyClientPlaceBookingStore econnRefusedEnv sampleStore "B1").2.getD 0
        emptyClientPlaceBooking).clientPlaceStatus = "verified" ∧
    ((verifyClientPlaceBookingStore econnRefusedEnv
        (verifyClientPlaceBookingStore econnRefusedEnv sampleStore "B1").2 "B1").2.getD 0
        emptyClientPlaceBooking).verificationAttempts = 4 := by
  have h := c7_verification_attempt_counter econnRefusedEnv sampleStore "B1" 0 (by decide)
  exact ⟨h.2.2.2.1 (by decide), h.2.2.2.2 econnRefusedEnv⟩

/-! ### Claim C8 — strategy failure semantics -/

/-- Whether a fetch at `e` yields an HTTP-success (`response.ok`) outcome. -/
def fetchOkAt (env : AutomationEnv) (e : String) : Bool :=
  match env.fetch e with
  | .throwErr _ => false
  | .resp ok _ => ok

theorem tryApiBookingOver_all_fail (env : AutomationEnv) :
    ∀ l : List String, (∀ e ∈ l, fetchOkAt env e = false) →
      tryApiBookingOver env l = { success := false, error := some "No API endpoints available" } := by
  intro l
  induction l with
  | nil => intro _; rfl
  | cons e rest ih =>
    intro h
    have he := h e (List.mem_cons_self e rest)
    simp only [tryApiBookingOver]
    cases hf : env.fetch e with
    | throwErr msg => exact ih (fun x hx => h x (List.mem_cons_of_mem e hx))
    | resp ok p =>
      have : ok = false := by simpa [fetchOkAt, hf] using he
      rw [this]
      simpa using ih (fun x hx => h x (List.mem_cons_of_mem e hx))

theorem tryApiBookingOver_failure_message (env : AutomationEnv) :
    ∀ l : List String, (tryApiBookingOver env l).success = false →
      (tryApiBookingOver env l).error = some "No API endpoints available" := by
  intro l
  induction l with
  | nil => intro _; rfl
  | cons e rest ih =>
    intro h
    simp only [tryApiBookingOver] at h ⊢
    cases hf : env.fetch e with
    | throwErr msg =>
      rw [hf] at h
      exact ih (by simpa using h)
    | resp ok p =>
      rw [hf] at h
      cases ok with
      | true => simp at h
      | false => simpa using ih (by simpa using h)

/-- C8 (counterexample): a transport error (`ECONNREFUSED`) at every endpoint
is swallowed per-endpoint and the failure result of the API strategy carries
the fixed diagnostic `No API endpoints available`, which does not contain the
underlying error message — so "the error field preserves the underlying error
message" fails for the endpoint-exhaustion path. -/
theorem c8_error_preservation_counterexample :
    tryApiBooking econnRefusedEnv sampleBookingData =
      { success := false, error := some "No API endpoints available" } ∧
    strContains "No API endpoints available" "ECONNREFUSED" = false := by
  exact ⟨rfl, by decide⟩

/-- C8 (amended): every strategy attempt catches transport and timeout errors
internally and returns a failure result (never an exception); when all of a
strategy's candidate endpoints are exhausted the strategy returns a failure
result with a fixed diagnostic string (the per-endpoint messages are
swallowed), and an error thrown inside the browser-automation body is
converted by its top-level handler into a failure result that preserves the
underlying message prefixed with `Automation failed: `. -/
theorem c8_strategy_failure_semantics :
    ∀ (env : AutomationEnv) (bookingData : BookingData),
      ((∀ e ∈ apiEndpoints, fetchOkAt env e = false) →
        tryApiBooking env bookingData =
          { success := false, error := some "No API endpoints available" }) ∧
      ((tryApiBooking env bookingData).success = false →
        (tryApiBooking env bookingData).error = some "No API endpoints available") ∧
      (∀ msg : String, attemptBookingExc env bookingData = .error msg →
        attemptBooking env bookingData =
          { success := false, error := some ("Automation failed: " ++ msg) }) := by
  intro env bookingData
  refine ⟨fun h => tryApiBookingOver_all_fail env apiEndpoints h,
    fun h => tryApiBookingOver_failure_message env apiEndpoints h, ?_⟩
  intro msg hmsg
  unfold attemptBooking
  rw [hmsg]

/-- C8 (witness): the amended guarantees at concrete environments — complete
endpoint exhaustion under `ECONNREFUSED`, and a browser initialisation that
throws `boom`. -/
theorem c8_strategy_failure_semantics_witness :
    tryApiBooking econnRefusedEnv sampleBookingData =
      { success := false, error := some "No API endpoints available" } ∧
    attemptBooking initBoomEnv sampleBookingData =
      { success := false, error := some ("Automation failed: " ++ "boom") } :=
  ⟨(c8_strategy_failure_semantics econnRefusedEnv sampleBookingData).1 (fun _ _ => rfl),
   (c8_strategy_failure_semantics initBoomEnv sampleBookingData).2.2 "boom" rfl⟩

/-! ### Claim C9 — updateBookingStatus frame conditions -/

/-- C9: `updateBookingStatus` rewrites only the first log record whose `id`
equals the given booking id — setting its `status`, its `updatedAt`, and
(`if (officialReference)`, so only for a non-empty value) its
`officialReference` — while the record's `id`, `timestamp`, `data` and
`instructions` and every record at another index are unchanged; when no record
matches, the log is written back unchanged and no error is raised. -/
theorem c9_update_booking_status_frame :
    ∀ (log : List BookingRecord) (bookingId status : String)
      (officialReference : Option String) (nowIso : String),
      (lookupIdxBy (fun b => b.id == bookingId) log = none →
        updateBookingStatus log bookingId status officialReference nowIso = log) ∧
      (∀ i : Nat, lookupIdxBy (fun b => b.id == bookingId) log = some i →
        ((updateBookingStatus log bookingId status officialReference nowIso).length = log.length ∧
         (∀ j : Nat, j ≠ i →
           (updateBookingStatus log bookingId status officialReference nowIso).getD j emptyBookingRecord =
             log.getD j emptyBookingRecord) ∧
         ((updateBookingStatus log bookingId status officialReference nowIso).getD i emptyBookingRecord).id =
           (log.getD i emptyBookingRecord).id ∧
         ((updateBookingStatus log bookingId status officialReference nowIso).getD i emptyBookingRecord).timestamp =
           (log.getD i emptyBookingRecord).timestamp ∧
         ((updateBookingStatus log bookingId status officialReference nowIso).getD i emptyBookingRecord).data =
           (log.getD i emptyBookingRecord).data ∧
         ((updateBookingStatus log bookingId status officialReference nowIso).getD i emptyBookingRecord).instructions =
           (log.getD i emptyBookingRecord).instructions ∧
         ((updateBookingStatus log bookingId status officialReference nowIso).getD i emptyBookingRecord).status =
           status ∧
         ((updateBookingStatus log bookingId status officialReference nowIso).getD i emptyBookingRecord).updatedAt =
           some nowIso ∧
         ((updateBookingStatus log bookingId status officialReference nowIso).getD i emptyBookingRecord).officialReference =
           (match officialReference with
            | some r => if r = "" then (log.getD i emptyBookingRecord).officialReference else some r
            | none => (log.getD i emptyBookingRecord).officialReference))) := by
  intro log bookingId status officialReference nowIso
  constructor
  · intro hnone
    simp [updateBookingStatus, hnone]
  · intro i hidx
    have hlen : i < log.length := lookupIdxBy_lt_length _ log i hidx
    have hupd : updateBookingStatus log bookingId status officialReference nowIso =
        log.set i
          { log.getD i emptyBookingRecord with
            status := status,
            officialReference :=
              match officialReference with
              | some r => if r = "" then (log.getD i emptyBookingRecord).officialReference else some r
              | none => (log.getD i emptyBookingRecord).officialReference,
            updatedAt := some nowIso } := by
      simp [updateBookingStatus, hidx]
    rw [hupd, getD_set_self log i _ emptyBookingRecord hlen]
    refine ⟨by simp, ?_, rfl, rfl, rfl, rfl, rfl, rfl, rfl⟩
    intro j hj
    exact getD_set_ne log i j _ emptyBookingRecord (fun h => hj h.symm)

/-- Fixture log with two records for the C9 witness. -/
def sampleLog : List BookingRecord :=
  [manualRecord sampleBookingData 1 "t1",
   manualRecord sampleBookingData 2 "t2"]

/-- C9 (witness): updating record `MANUAL-1` in the two-record fixture log
sets its status and leaves the other record untouched. -/
theorem c9_update_booking_status_frame_witness :
    ((updateBookingStatus sampleLog "MANUAL-1" "completed" (some "OFF-9") "t3").getD 0
        emptyBookingRecord).status = "completed" ∧
    (updateBookingStatus sampleLog "MANUAL-1" "completed" (some "OFF-9") "t3").getD 1
        emptyBookingRecord = sampleLog.getD 1 emptyBookingRecord := by
  have h := (c9_update_booking_status_frame sampleLog "MANUAL-1" "completed" (some "OFF-9") "t3").2
    0 (by decide)
  exact ⟨h.2.2.2.2.2.2.1, h.2.1 1 (by decide)⟩
